import Mathlib

/-!
Shallow embedding of the pidgin widget engine (src/widgets.js): the registry,
`register`, `upgrade`, `parse`, and the four property-descriptor factories
(`getDomAttributeDescriptor`, `getShadowDomAttributeDescriptor`,
`getShadowCalculatedDescriptor`, `getDelegateDescriptor`).

JavaScript primitive values are modelled by `JSVal` (strict equality `===`
becomes decidable equality, `||` and truthiness are modelled explicitly).
DOM nodes are modelled by explicit state records; stateful descriptor
getters/setters become explicit state-passing functions; `upgrade` returns
the new element state together with an ordered trace of the observable
steps it performed (prototype mutation, marker write, callback invocations).
-/

namespace Pidgin

/-- A JavaScript primitive value, as used by the descriptor factories:
`undefined`, `null`, booleans, numbers (modelled as integers) and strings. -/
inductive JSVal where
  | undefined : JSVal
  | null : JSVal
  | bool : Bool → JSVal
  | num : Int → JSVal
  | str : String → JSVal
deriving DecidableEq, Repr, Inhabited

/-- JavaScript truthiness: `undefined`, `null`, `false`, `0` and `""` are falsy. -/
def truthy : JSVal → Bool
  | .undefined => false
  | .null => false
  | .bool b => b
  | .num n => n != 0
  | .str s => s != ""

/-- JavaScript string coercion, applied by `setAttribute` to its value argument. -/
def toJSString : JSVal → String
  | .undefined => "undefined"
  | .null => "null"
  | .bool b => if b then "true" else "false"
  | .num n => toString n
  | .str s => s

/-- The JavaScript `a || b` operator on values. -/
def jsOr (a b : JSVal) : JSVal := if truthy a then a else b

/-- Reading a possibly-absent object property: an absent property reads as `undefined`. -/
def readProp (o : Option JSVal) : JSVal := o.getD .undefined

/-- Modelled from the spec: the external property helper `shadow` (from the
`properties` collaborator, which is not under src/) defines a hidden,
non-enumerable backing property holding the given value; the value used by the
descriptor code as the helper's result is the value just stored. -/
def shadowStore (v : JSVal) : Option JSVal := some v

/-- ASCII lower-casing of one character (the names the engine lower-cases —
tag names and HTMLElement interface names — are ASCII). -/
def lowerChar (c : Char) : Char :=
  if 'A' ≤ c ∧ c ≤ 'Z' then Char.ofNat (c.toNat + 32) else c

/-- `String.prototype.toLowerCase()` as the engine applies it, character by
character. -/
def toLowerCase (s : String) : String := ⟨s.data.map lowerChar⟩

/-- A DOM sub-node as the attribute descriptors see it: the state of the one
attribute (`attributeName`) the descriptor is linked to.  `none` means the
attribute is absent (`getAttribute` returns `null`, `removeAttribute` was
called); `some v` means the attribute holds string `v`. -/
structure AttrNode where
  attr : Option String
deriving DecidableEq, Repr, Inhabited

/-- `getAttribute(attributeName)` as a `JSVal`: the string value, or `null`. -/
def getAttr (n : AttrNode) : JSVal :=
  match n.attr with
  | some v => .str v
  | none => .null

/-! ### getDomAttributeDescriptor (src/widgets.js lines 306-327) -/

/-- The part of `this` that `getDomAttributeDescriptor`'s accessors touch:
`this[nodeName]`, either absent (falsy) or a node with the linked attribute. -/
structure DomAttrState where
  node : Option AttrNode
deriving DecidableEq, Repr, Inhabited

/-- The `get` accessor of `getDomAttributeDescriptor`:
`this[nodeName] ? this[nodeName].getAttribute(attributeName) : null`. -/
def domAttrGet (s : DomAttrState) : JSVal :=
  match s.node with
  | some n => getAttr n
  | none => .null

/-- The error message thrown by the `set` accessor on an undefined node. -/
def domAttrErrMsg (attributeName : String) : String :=
  "Cannot set value of attribute \"" ++ attributeName ++ "\" on undefined node."

/-- The `set` accessor of `getDomAttributeDescriptor`: with a present sub-node,
a truthy value is written with `setAttribute` (string-coerced) and a falsy value
removes the attribute; with no sub-node it throws.  The state component of the
result reflects every mutation performed before a throw (here: none). -/
def domAttrSet (attributeName : String) (s : DomAttrState) (value : JSVal) :
    DomAttrState × Option String :=
  match s.node with
  | some _ =>
    if truthy value then (⟨some ⟨some (toJSString value)⟩⟩, none)
    else (⟨some ⟨none⟩⟩, none)
  | none => (s, some (domAttrErrMsg attributeName))

/-! ### getShadowDomAttributeDescriptor (src/widgets.js lines 337-364) -/

/-- The part of `this` that `getShadowDomAttributeDescriptor`'s accessors touch:
`this[nodeName]` and the hidden shadow property `this[shadowPropertyName]`
(`none` models `shadowPropertyName in this` being false). -/
structure ShadowAttrState where
  node : Option AttrNode
  shadowProp : Option JSVal
deriving DecidableEq, Repr, Inhabited

/-- The `get` accessor of `getShadowDomAttributeDescriptor`, returning the read
value together with the possibly-updated state (the getter may store a new
shadow value). -/
def shadowAttrGet (s : ShadowAttrState) : JSVal × ShadowAttrState :=
  let value : JSVal :=
    match s.node with
    | some n => getAttr n
    | none => jsOr (readProp s.shadowProp) .null
  if value ≠ readProp s.shadowProp then
    if value = .null ∧ s.shadowProp.isSome then (readProp s.shadowProp, s)
    else (value, { s with shadowProp := shadowStore value })
  else (value, s)

/-- The `set` accessor of `getShadowDomAttributeDescriptor`: stores the value in
the shadow property when it differs from the current shadow value, then, when
the sub-node is present, writes or removes the real attribute. -/
def shadowAttrSet (s : ShadowAttrState) (value : JSVal) : ShadowAttrState :=
  let s1 : ShadowAttrState :=
    if value ≠ readProp s.shadowProp then { s with shadowProp := shadowStore value } else s
  match s1.node with
  | some _ =>
    if truthy value then { s1 with node := some ⟨some (toJSString value)⟩ }
    else { s1 with node := some ⟨none⟩ }
  | none => s1

/-! ### getShadowCalculatedDescriptor (src/widgets.js lines 375-389) -/

/-- The part of `this` that `getShadowCalculatedDescriptor`'s accessors touch:
the hidden shadow property `this['_' + name]`. -/
structure CalcState where
  shadowProp : Option JSVal
deriving DecidableEq, Repr, Inhabited

/-- The `get` accessor of `getShadowCalculatedDescriptor`: calls the user
getter with the property name and the last shadowed value, and stores the
result as the new shadow value only when it differs from it. -/
def shadowCalcGet (getter : String → JSVal → JSVal) (name : String) (s : CalcState) :
    JSVal × CalcState :=
  let value := getter name (readProp s.shadowProp)
  if value ≠ readProp s.shadowProp then (value, ⟨shadowStore value⟩)
  else (value, s)

/-- The `set` accessor of `getShadowCalculatedDescriptor`: calls the user
setter with the property name and the new value, then unconditionally stores
the setter's return value as the shadow value. -/
def shadowCalcSet (setter : String → JSVal → JSVal) (name : String) (_s : CalcState)
    (value : JSVal) : CalcState :=
  let value1 := setter name value
  ⟨shadowStore value1⟩

/-! ### getDelegateDescriptor (src/widgets.js lines 398-414) -/

/-- The delegate sub-object, reduced to the one property (`propertyName`) the
descriptor forwards to. -/
structure DelegObj where
  prop : JSVal
deriving DecidableEq, Repr, Inhabited

/-- The part of `this` that `getDelegateDescriptor`'s accessors touch:
`this[delegateName]`, absent (falsy) or a delegate object. -/
structure DelegState where
  delegate : Option DelegObj
deriving DecidableEq, Repr, Inhabited

/-- The `get` accessor of `getDelegateDescriptor`:
`this[delegateName] ? this[delegateName][propertyName] : undefined`. -/
def delegateGet (s : DelegState) : JSVal :=
  match s.delegate with
  | some d => d.prop
  | none => .undefined

/-- The error message thrown by the `set` accessor on an undefined delegate. -/
def delegateErrMsg (propertyName : String) : String :=
  "Cannot set value of property \"" ++ propertyName ++ "\" on undefined delegate."

/-- The `set` accessor of `getDelegateDescriptor`: forwards the value to the
delegate's property, or throws when the delegate is absent.  The state
component of the result reflects every mutation performed before a throw
(here: none — the delegate is never created). -/
def delegateSet (propertyName : String) (s : DelegState) (value : JSVal) :
    DelegState × Option String :=
  match s.delegate with
  | some _ => (⟨some ⟨value⟩⟩, none)
  | none => (s, some (delegateErrMsg propertyName))

/-! ### Registry, widget metadata, and element state -/

/-- A widget prototype as `upgrade` and the lifecycle machinery observe it:
an identity token plus the presence and behaviour of the two lifecycle
callbacks.  Lifecycle callbacks are external user code; the model records
whether each is present on the prototype and whether its invocation throws
(its control effect); arbitrary user mutations of the element from inside a
callback are outside the model. -/
structure Proto where
  id : Nat
  hasReady : Bool
  readyThrows : Bool
  hasInserted : Bool
  insertedThrows : Bool
deriving DecidableEq, Repr, Inhabited

/-- One registry entry (`registry[tag]` in src/widgets.js): the composed
prototype, the optional `extends` field (`config.extends`), and whether the
`_prototype` own-descriptor snapshot was taken (only when neither native
registration nor `__proto__` reassignment is available). -/
structure WidgetMeta where
  prototype : Proto
  extendsTag : Option String
  rawSnapshot : Bool
deriving DecidableEq, Repr, Inhabited

/-- Lookup in a string-keyed association list (the JS object used both for
`registry` and the `tags` table). -/
def lookupTag {α : Type} : List (String × α) → String → Option α
  | [], _ => none
  | (k, v) :: rest, key => if k = key then some v else lookupTag rest key

/-- A DOM element as `upgrade` observes and mutates it: the `is` attribute
(`none` when absent), the node name (`nodeName`, upper-case for HTML elements),
the `__upgraded__` marker, the current prototype, and whether
`doc.documentElement.contains(element)` holds. -/
structure Elem where
  isAttr : Option String
  nodeName : String
  upgraded : Bool
  proto : Proto
  inDocument : Bool
deriving DecidableEq, Repr, Inhabited

/-- The observable steps of one `upgrade` call, in execution order: the
prototype mutation, the `__upgraded__ = true` write, and the two lifecycle
callback invocations. -/
inductive Ev where
  | protoSet : Ev
  | markerSet : Ev
  | ready : Ev
  | inserted : Ev
deriving DecidableEq, BEq, Repr, Inhabited

/-- Result of one `upgrade` call: the element's final state, the ordered trace
of observable steps, and whether the call ended by a callback throwing. -/
structure UpRes where
  elem : Elem
  trace : List Ev
  threw : Bool
deriving DecidableEq, Repr, Inhabited

/-- The registry lookup performed by `upgrade`:
`registry[element.getAttribute('is') || element.nodeName.toLowerCase()]`.
An absent `is` attribute reads as `null` (falsy) and an empty one is falsy,
so both fall through to the lower-cased node name. -/
def lookupWidget (reg : List (String × WidgetMeta)) (e : Elem) : Option WidgetMeta :=
  lookupTag reg
    (match e.isAttr with
     | some s => if s = "" then toLowerCase e.nodeName else s
     | none => toLowerCase e.nodeName)

/-- The lifecycle-callback phase of `upgrade`, run on the element after the
prototype swap and the marker write: `readyCallback` is invoked when present;
`insertedCallback` is invoked when present and the element is attached to the
live document; a throw from `readyCallback` prevents the `insertedCallback`
check from running.  Returns the callback events in invocation order and
whether a callback threw. -/
def callbackEvents (e : Elem) : List Ev × Bool :=
  if e.proto.hasReady then
    if e.proto.readyThrows then ([.ready], true)
    else if e.proto.hasInserted && e.inDocument then
      ([.ready, .inserted], e.proto.insertedThrows)
    else ([.ready], false)
  else if e.proto.hasInserted && e.inDocument then
    ([.inserted], e.proto.insertedThrows)
  else ([], false)

/-- `upgrade` (src/widgets.js lines 74-97): a no-op when the `__upgraded__`
marker is set or the registry lookup misses; otherwise it mutates the
prototype (by `__proto__` reassignment when available, else by the
per-descriptor copy of the `_prototype` snapshot — both install the widget's
prototype behaviour and are modelled identically), sets the marker, and runs
the lifecycle callbacks. -/
def upgrade (hasProto : Bool) (reg : List (String × WidgetMeta)) (e : Elem) : UpRes :=
  if e.upgraded then ⟨e, [], false⟩
  else
    match lookupWidget reg e with
    | none => ⟨e, [], false⟩
    | some w =>
      let e1 : Elem :=
        if hasProto then { e with proto := w.prototype }
        else { e with proto := w.prototype }
      let e2 : Elem := { e1 with upgraded := true }
      let cb := callbackEvents e2
      ⟨e2, [.protoSet, .markerSet] ++ cb.1, cb.2⟩

/-! ### register (src/widgets.js lines 108-297) -/

/-- The mutable module-level state of src/widgets.js: the `registry` object (as
an insertion-ordered association list) and the `selectors` array. -/
structure RegState where
  registry : List (String × WidgetMeta)
  selectors : List String
deriving DecidableEq, Repr, Inhabited

/-- The aspects of a `baseElement` constructor that `register`'s validation
reads: whether it is `HTMLElement` itself, whether its prototype is an
`instanceof HTMLElement`, and the three sources `getBaseName` consults in
order (`prototype._baseName`, `Function.name`, the name parsed out of the
constructor's `toString()`).  An empty-string name is falsy in the source and
is modelled as `none`. -/
structure BaseElement where
  isHTMLElementCtor : Bool
  protoInstHTMLElement : Bool
  protoBaseName : Option String
  fnName : Option String
  srcName : Option String
deriving DecidableEq, Repr, Inhabited

/-- `getBaseName` (src/widgets.js lines 188-205): `prototype._baseName`, else
`Function.name`, else the name parsed from the constructor's text, else
no name at all. -/
def getBaseName (b : BaseElement) : Option String :=
  match b.protoBaseName with
  | some n => some n
  | none =>
    match b.fnName with
    | some n => some n
    | none => b.srcName

/-- The `tags` table of `register` (src/widgets.js lines 116-181): the hash
mapping HTMLElement interface names to tag names. -/
def tags : List (String × String) :=
  [("HTMLAnchorElement", "a"), ("HTMLAppletElement", "applet"), ("HTMLAreaElement", "area"),
   ("HTMLAudioElement", "audio"), ("HTMLBaseElement", "base"), ("HTMLBRElement", "br"),
   ("HTMLButtonElement", "button"), ("HTMLCanvasElement", "canvas"), ("HTMLDataElement", "data"),
   ("HTMLDataListElement", "datalist"), ("HTMLDivElement", "div"), ("HTMLDListElement", "dl"),
   ("HTMLDirectoryElement", "directory"), ("HTMLEmbedElement", "embed"),
   ("HTMLFieldSetElement", "fieldset"), ("HTMLFontElement", "font"), ("HTMLFormElement", "form"),
   ("HTMLHeadElement", "head"), ("HTMLHeadingElement", "h1"), ("HTMLHtmlElement", "html"),
   ("HTMLHRElement", "hr"), ("HTMLIFrameElement", "iframe"), ("HTMLImageElement", "img"),
   ("HTMLInputElement", "input"), ("HTMLKeygenElement", "keygen"), ("HTMLLabelElement", "label"),
   ("HTMLLegendElement", "legend"), ("HTMLLIElement", "li"), ("HTMLLinkElement", "link"),
   ("HTMLMapElement", "map"), ("HTMLMediaElement", "media"), ("HTMLMenuElement", "menu"),
   ("HTMLMetaElement", "meta"), ("HTMLMeterElement", "meter"), ("HTMLModElement", "ins"),
   ("HTMLObjectElement", "object"), ("HTMLOListElement", "ol"),
   ("HTMLOptGroupElement", "optgroup"), ("HTMLOptionElement", "option"),
   ("HTMLOutputElement", "output"), ("HTMLParagraphElement", "p"), ("HTMLParamElement", "param"),
   ("HTMLPreElement", "pre"), ("HTMLProgressElement", "progress"), ("HTMLQuoteElement", "quote"),
   ("HTMLScriptElement", "script"), ("HTMLSelectElement", "select"),
   ("HTMLSourceElement", "source"), ("HTMLSpanElement", "span"), ("HTMLStyleElement", "style"),
   ("HTMLTableElement", "table"), ("HTMLTableCaptionElement", "caption"),
   ("HTMLTableDataCellElement", "td"), ("HTMLTableHeaderCellElement", "th"),
   ("HTMLTableColElement", "col"), ("HTMLTableRowElement", "tr"),
   ("HTMLTableSectionElement", "tbody"), ("HTMLTextAreaElement", "textarea"),
   ("HTMLTimeElement", "time"), ("HTMLTitleElement", "title"), ("HTMLTrackElement", "track"),
   ("HTMLUListElement", "ul"), ("HTMLUnknownElement", "blink"), ("HTMLVideoElement", "video")]

/-- The error kinds `register` can throw (all `TypeError`s in the source). -/
inductive RegError where
  | duplicateTag : RegError
  | invalidBase : RegError
  | unresolvableBaseName : RegError
  | unrecognizedBase : RegError
deriving DecidableEq, Repr, Inhabited

/-- Decidable equality of `register` outcomes, used to evaluate concrete
registration results. -/
instance {ε α : Type} [DecidableEq ε] [DecidableEq α] : DecidableEq (Except ε α) := by
  intro a b
  cases a <;> cases b
  case error.error x y =>
    exact if h : x = y then isTrue (by rw [h]) else isFalse (by simp [h])
  case ok.ok x y =>
    exact if h : x = y then isTrue (by rw [h]) else isFalse (by simp [h])
  case error.ok x y => exact isFalse (by simp)
  case ok.error x y => exact isFalse (by simp)

/-- The selector string pushed by `getTagConstructor`:
`config.extends ? config.extends + '[is="' + tag + '"]' : tag`. -/
def selectorFor (extTag : Option String) (tag : String) : String :=
  match extTag with
  | some e => e ++ "[is=\"" ++ tag ++ "\"]"
  | none => tag

/-- `register` (src/widgets.js lines 108-297), as a transformer of the module
state.  The four validation checks run in source order before any mutation;
on success, `getTagConstructor` writes the registry entry and, in the
non-native path, appends the selector.  The composed prototype produced by the
external `compose` collaborator is taken as the argument `composedProto`; the
returned constructor function carries no state and is dropped.  The result
pairs the state after the call (identical to the input state whenever the call
throws) with the outcome. -/
def register (hasDocRegister hasProto : Bool) (st : RegState) (tag : String)
    (base : BaseElement) (composedProto : Proto) : RegState × Except RegError Unit :=
  if (lookupTag st.registry tag).isSome then (st, .error .duplicateTag)
  else if ¬(base.isHTMLElementCtor || base.protoInstHTMLElement) then (st, .error .invalidBase)
  else
    match getBaseName base with
    | none => (st, .error .unresolvableBaseName)
    | some baseName =>
      if baseName ≠ "HTMLElement" ∧ (lookupTag tags baseName).isNone then
        (st, .error .unrecognizedBase)
      else
        let extTag : Option String :=
          if baseName ≠ "HTMLElement" then lookupTag tags baseName else none
        let meta : WidgetMeta := ⟨composedProto, extTag, !hasDocRegister && !hasProto⟩
        let st1 : RegState := { st with registry := st.registry ++ [(tag, meta)] }
        if hasDocRegister then (st1, .ok ())
        else ({ st1 with selectors := st1.selectors ++ [selectorFor extTag tag] }, .ok ())

/-! ### parse (src/widgets.js lines 420-431) -/

/-- Splits a character list at the first occurrence of the five-character
infix the `ext[is="tag"]` selector form contains, returning the parts before
and after it when it occurs. -/
def splitAtIsAttr : List Char → Option (List Char × List Char)
  | [] => none
  | '[' :: 'i' :: 's' :: '=' :: '"' :: rest => some ([], rest)
  | c :: cs =>
    match splitAtIsAttr cs with
    | some (pre, post) => some (c :: pre, post)
    | none => none

/-- Modelled from the spec: the host's CSS matching inside `querySelectorAll`,
for the two selector forms `register` generates — a bare type selector `tag`
(type selectors match HTML tag names case-insensitively) and
`ext[is="tag"]` (type selector plus an exact attribute-value condition). -/
def matchesSelector (sel : String) (e : Elem) : Bool :=
  match splitAtIsAttr sel.data with
  | none => toLowerCase e.nodeName == toLowerCase sel
  | some (ext, rest) =>
    toLowerCase e.nodeName == toLowerCase ⟨ext⟩ &&
      (match e.isAttr with
       | some v => (⟨rest⟩ : String) == v ++ "\"]"
       | none => false)

/-- Whether an element matches any selector in the selector list (the comma-
joined selector group passed to `querySelectorAll`). -/
def matchesAnySelector (sels : List String) (e : Elem) : Bool :=
  sels.any (fun s => matchesSelector s e)

/-- The one batched `querySelectorAll(selectors)` over the root's nodes,
modelled on a document-ordered node list: the (document-ordered) indices of
the nodes matching any selector, computed once from the pre-parse snapshot. -/
def queryMatches (sels : List String) (root : List Elem) : List Nat :=
  (List.range root.length).filter (fun i => matchesAnySelector sels (root.getD i default))

/-- `parse`'s while-loop over the queried node indices: each iteration runs
`upgrade(node)` on the node at the next index, updating the document in place
and extending the event trace; an exception thrown by a lifecycle callback
inside that `upgrade` propagates out of the loop, aborting the parse — the
remaining matches are not visited.  Returns the document and trace at the
point the loop ended, and whether it ended by a throw. -/
def parseLoop (hasProto : Bool) (reg : List (String × WidgetMeta)) :
    List Nat → List Elem × List Ev → (List Elem × List Ev) × Bool
  | [], acc => (acc, false)
  | i :: rest, acc =>
    let r := upgrade hasProto reg (acc.1.getD i default)
    let acc1 := (acc.1.set i r.elem, acc.2 ++ r.trace)
    if r.threw then (acc1, true)
    else parseLoop hasProto reg rest acc1

/-- `parse` (src/widgets.js lines 420-431): a deliberate no-op when native
`document.register` is available; otherwise one batched query of the root
(the caller passes the root's document-ordered node list, defaulting to the
whole document) followed by the upgrade loop over the matches in query order,
which a throwing lifecycle callback aborts early. -/
def parse (hasDocRegister hasProto : Bool) (reg : List (String × WidgetMeta))
    (sels : List String) (root : List Elem) : (List Elem × List Ev) × Bool :=
  if hasDocRegister then ((root, []), false)
  else parseLoop hasProto reg (queryMatches sels root) (root, [])

/-! ### Shared concrete objects used by witnesses and counterexamples -/

/-- A prototype with no lifecycle callbacks. -/
def protoPlain : Proto := ⟨0, false, false, false, false⟩

/-- A prototype with both lifecycle callbacks, neither throwing. -/
def protoFull : Proto := ⟨1, true, false, true, false⟩

/-- A prototype whose `readyCallback` throws. -/
def protoThrowingReady : Proto := ⟨2, true, true, true, false⟩

/-- A registered widget with both lifecycle callbacks. -/
def widgetFull : WidgetMeta := ⟨protoFull, none, false⟩

/-- A registered widget whose `readyCallback` throws. -/
def widgetThrowingReady : WidgetMeta := ⟨protoThrowingReady, none, false⟩

/-- A `baseElement` looking like `HTMLButtonElement`: not `HTMLElement` itself,
prototype an `instanceof HTMLElement`, name available via `Function.name`. -/
def baseButton : BaseElement := ⟨false, true, none, some "HTMLButtonElement", none⟩

/-! ### C3 — attribute-mirrored descriptor round trip -/

/-- C3 counterexample: the claim quantifies over every string value `V`, but
for `V = ""` (a falsy string) the `set` accessor removes the attribute instead
of storing `""`, and reading back yields `null`, not `""`.  Concretely, on a
state whose sub-node carries the attribute value `"x"`, setting `""` removes
the attribute and the subsequent read returns `null`. -/
theorem c3_empty_string_counterexample :
    domAttrSet "label" ⟨some ⟨some "x"⟩⟩ (.str "") = (⟨some ⟨none⟩⟩, none) ∧
    domAttrGet ⟨some ⟨none⟩⟩ = .null ∧ JSVal.null ≠ JSVal.str "" := by
  decide

/-- C3 (amended): for the attribute-mirrored descriptor with a present
sub-node, setting the property to any nonempty (truthy) string `V` writes the
attribute and reading it back yields `V`; setting any falsy value (including
the empty string) removes the underlying attribute, after which reading yields
the `null` sentinel. -/
theorem c3_domAttr_roundtrip_amended :
    (∀ (attributeName V : String) (n : AttrNode), V ≠ "" →
      domAttrSet attributeName ⟨some n⟩ (.str V) = (⟨some ⟨some V⟩⟩, none) ∧
      domAttrGet ⟨some ⟨some V⟩⟩ = .str V) ∧
    (∀ (attributeName : String) (v : JSVal) (n : AttrNode), truthy v = false →
      domAttrSet attributeName ⟨some n⟩ v = (⟨some ⟨none⟩⟩, none) ∧
      domAttrGet ⟨some ⟨none⟩⟩ = .null) := by
  constructor
  · intro attributeName V n hV
    refine ⟨?_, rfl⟩
    simp [domAttrSet, truthy, toJSString, hV]
  · intro attributeName v n hv
    refine ⟨?_, rfl⟩
    simp [domAttrSet, hv]

/-- C3 witness: the amended round trip evaluated at the nonempty string `"ok"`
and at the falsy string `""` on a concrete state with a present sub-node. -/
theorem c3_domAttr_roundtrip_amended_witness :
    (domAttrSet "title" ⟨some ⟨none⟩⟩ (.str "ok") = (⟨some ⟨some "ok"⟩⟩, none) ∧
      domAttrGet ⟨some ⟨some "ok"⟩⟩ = .str "ok") ∧
    (domAttrSet "title" ⟨some ⟨some "ok"⟩⟩ (.str "") = (⟨some ⟨none⟩⟩, none) ∧
      domAttrGet ⟨some ⟨none⟩⟩ = .null) :=
  ⟨c3_domAttr_roundtrip_amended.1 "title" "ok" ⟨none⟩ (by decide),
   c3_domAttr_roundtrip_amended.2 "title" (.str "") ⟨some "ok"⟩ (by decide)⟩

/-! ### C7 — computed/shadowed descriptor -/

/-- C7: the computed/shadowed descriptor's `get` calls the user getter with the
property name and the last shadowed value, and stores the result as the new
shadow value only when it differs from the previous shadow value; `set` calls
the user setter with the property name and the new value and unconditionally
stores the setter's return value (not the raw input) as the shadow value. -/
theorem c7_shadowCalc_get_set :
    ∀ (getter setter : String → JSVal → JSVal) (name : String) (s : CalcState) (v : JSVal),
      (shadowCalcGet getter name s).1 = getter name (readProp s.shadowProp) ∧
      (shadowCalcGet getter name s).2 =
        (if getter name (readProp s.shadowProp) = readProp s.shadowProp then s
         else ⟨some (getter name (readProp s.shadowProp))⟩) ∧
      shadowCalcSet setter name s v = ⟨some (setter name v)⟩ := by
  intro getter setter name s v
  by_cases h : getter name (readProp s.shadowProp) = readProp s.shadowProp <;>
    simp [shadowCalcGet, shadowCalcSet, shadowStore, h]

/-! ### C8 — shadow-attribute-mirrored descriptor persistence -/

/-- When the sub-node is absent and the shadow property holds `v`, the `get`
accessor of the shadow-attribute descriptor returns `v` (through the live
value when `v` is truthy, through the shadow fallback branch otherwise). -/
theorem shadowAttrGet_of_stored (v : JSVal) : (shadowAttrGet ⟨none, some v⟩).1 = v := by
  by_cases ht : truthy v = true
  · simp [shadowAttrGet, jsOr, readProp, ht]
  · by_cases hn : v = .null
    · subst hn; simp [shadowAttrGet, jsOr, readProp, truthy]
    · have hne : JSVal.null ≠ v := fun h => hn h.symm
      simp [shadowAttrGet, jsOr, readProp, ht, hne]

/-- C8 counterexample: the claim quantifies over setting "a value" while the
sub-node is absent, but setting `undefined` when no shadow value has ever been
stored is a no-op (`undefined !== this[shadowPropertyName]` is false), and the
subsequent read yields `null`, not the previously set `undefined`. -/
theorem c8_undefined_counterexample :
    (shadowAttrGet (shadowAttrSet ⟨none, none⟩ .undefined)).1 = .null ∧
    JSVal.null ≠ JSVal.undefined := by
  decide

/-- C8 (amended): for the shadow-attribute-mirrored descriptor, setting the
property to a value while the sub-node is absent and then reading (still with
the sub-node absent) yields the previously set value, the in-memory shadow
fallback having retained it — except in the single degenerate case where the
value set is `undefined` and no shadow value had ever been stored (there the
set is a no-op and reading yields `null`). -/
theorem c8_shadowAttr_persistence_amended :
    ∀ (s : ShadowAttrState) (v : JSVal), s.node = none →
      (v ≠ .undefined ∨ s.shadowProp ≠ none) →
      (shadowAttrGet (shadowAttrSet s v)).1 = v := by
  intro s v hnode hv
  rcases s with ⟨node, sh⟩
  cases hnode
  have hset : shadowAttrSet ⟨none, sh⟩ v = ⟨none, some v⟩ := by
    by_cases hne : v = sh.getD JSVal.undefined
    · rcases sh with _ | x
      · simp only [Option.getD_none] at hne
        rcases hv with hv | hv
        · exact absurd hne hv
        · simp at hv
      · simp only [Option.getD_some] at hne
        subst hne
        simp [shadowAttrSet, readProp]
    · simp [shadowAttrSet, readProp, shadowStore, hne]
  rw [hset]
  exact shadowAttrGet_of_stored v

/-- C8 witness: setting the string `"hi"` with the sub-node absent and no prior
shadow value, then reading, yields `"hi"`. -/
theorem c8_shadowAttr_persistence_amended_witness :
    (shadowAttrGet (shadowAttrSet ⟨none, none⟩ (.str "hi"))).1 = .str "hi" :=
  c8_shadowAttr_persistence_amended ⟨none, none⟩ (.str "hi") rfl (Or.inl (by decide))

/-! ### C9 — delegating descriptor failure -/

/-- C9: setting a delegating property when the named delegate property of
`this` is absent throws the `UndefinedDelegateError` and leaves `this`
unchanged — in particular the delegate sub-object is not created. -/
theorem c9_delegate_set_undefined :
    ∀ (propertyName : String) (s : DelegState) (v : JSVal), s.delegate = none →
      delegateSet propertyName s v = (s, some (delegateErrMsg propertyName)) := by
  intro propertyName s v h
  rcases s with ⟨_ | d⟩
  · rfl
  · simp at h

/-- C9 witness: setting `1` through the delegating descriptor on a state with
no delegate yields the undefined-delegate error and the unchanged state. -/
theorem c9_delegate_set_undefined_witness :
    delegateSet "foo" ⟨none⟩ (.num 1) = (⟨none⟩, some (delegateErrMsg "foo")) :=
  c9_delegate_set_undefined "foo" ⟨none⟩ (.num 1) rfl

/-! ### C2, C4, C5, C10 — upgrade -/

/-- The element state after a successful (matched, not-yet-upgraded) upgrade:
the widget's prototype installed and the `__upgraded__` marker set. -/
theorem upgrade_elem_of_match (hasProto : Bool) (reg : List (String × WidgetMeta)) (e : Elem)
    (w : WidgetMeta) (hu : e.upgraded = false) (hw : lookupWidget reg e = some w) :
    (upgrade hasProto reg e).elem = { e with proto := w.prototype, upgraded := true } := by
  cases hasProto <;> simp [upgrade, hu, hw]

/-- The trace of a matched, not-yet-upgraded upgrade call: prototype mutation,
marker write, then the callback events. -/
theorem upgrade_trace_of_match (hasProto : Bool) (reg : List (String × WidgetMeta)) (e : Elem)
    (w : WidgetMeta) (hu : e.upgraded = false) (hw : lookupWidget reg e = some w) :
    (upgrade hasProto reg e).trace =
      [.protoSet, .markerSet] ++
        (callbackEvents { e with proto := w.prototype, upgraded := true }).1 ∧
    (upgrade hasProto reg e).threw =
      (callbackEvents { e with proto := w.prototype, upgraded := true }).2 := by
  cases hasProto <;> simp [upgrade, hu, hw]

/-- An upgrade call on an element whose `__upgraded__` marker is set is a
no-op: same element back, no events, no throw. -/
theorem upgrade_marked_noop (hasProto : Bool) (reg : List (String × WidgetMeta)) (e : Elem)
    (hu : e.upgraded = true) : upgrade hasProto reg e = ⟨e, [], false⟩ := by
  simp [upgrade, hu]

/-- Closed form of the callback phase when `readyCallback` does not throw. -/
theorem callbackEvents_eq (e : Elem) (hnt : (e.proto.hasReady && e.proto.readyThrows) = false) :
    callbackEvents e =
      ((if e.proto.hasReady then [Ev.ready] else []) ++
        (if e.proto.hasInserted && e.inDocument then [Ev.inserted] else []),
       e.proto.hasInserted && e.inDocument && e.proto.insertedThrows) := by
  cases h1 : e.proto.hasReady <;> cases h2 : e.proto.hasInserted <;>
    cases h3 : e.inDocument <;> simp_all [callbackEvents]

/-- The callback phase when `readyCallback` is present and throws: just the
ready event, reported as a throw. -/
theorem callbackEvents_ready_throws (e : Elem)
    (h : (e.proto.hasReady && e.proto.readyThrows) = true) :
    callbackEvents e = ([.ready], true) := by
  simp only [Bool.and_eq_true] at h
  simp [callbackEvents, h.1, h.2]

/-- C2: for a not-yet-upgraded node matching a registered widget (whose
`readyCallback` does not throw), a second `upgrade` call is a no-op — the
element state (prototype, marker, and everything else) is unchanged and no
step is performed — and across both calls `readyCallback` and
`insertedCallback` are each invoked exactly once when applicable (ready when
present; inserted when present and the node is in the live document). -/
theorem c2_upgrade_idempotent (hasProto : Bool) (reg : List (String × WidgetMeta)) (e : Elem)
    (w : WidgetMeta) (hu : e.upgraded = false) (hw : lookupWidget reg e = some w)
    (hnt : w.prototype.readyThrows = false) :
    upgrade hasProto reg (upgrade hasProto reg e).elem =
      ⟨(upgrade hasProto reg e).elem, [], false⟩ ∧
    ((upgrade hasProto reg e).trace ++
        (upgrade hasProto reg (upgrade hasProto reg e).elem).trace).count .ready =
      (if w.prototype.hasReady then 1 else 0) ∧
    ((upgrade hasProto reg e).trace ++
        (upgrade hasProto reg (upgrade hasProto reg e).elem).trace).count .inserted =
      (if w.prototype.hasInserted && e.inDocument then 1 else 0) := by
  have helem := upgrade_elem_of_match hasProto reg e w hu hw
  have htr := (upgrade_trace_of_match hasProto reg e w hu hw).1
  have hsecond : upgrade hasProto reg (upgrade hasProto reg e).elem =
      ⟨(upgrade hasProto reg e).elem, [], false⟩ := by
    apply upgrade_marked_noop
    rw [helem]
  have hcb := callbackEvents_eq { e with proto := w.prototype, upgraded := true }
    (by simp [hnt])
  rw [hcb] at htr
  refine ⟨hsecond, ?_, ?_⟩ <;>
  · rw [hsecond, htr]
    by_cases h1 : w.prototype.hasReady = true <;>
      by_cases h2 : (w.prototype.hasInserted && e.inDocument) = true <;>
        simp [h1, h2, List.count_append, List.count_cons, List.count_nil] <;> decide

/-- C2 witness: a fresh matching node upgraded twice against a widget with
both callbacks; the second call is a no-op and each callback ran once. -/
theorem c2_upgrade_idempotent_witness :
    upgrade true [("pd-button", widgetFull)]
        (upgrade true [("pd-button", widgetFull)]
          ⟨none, "PD-BUTTON", false, protoPlain, true⟩).elem =
      ⟨(upgrade true [("pd-button", widgetFull)]
          ⟨none, "PD-BUTTON", false, protoPlain, true⟩).elem, [], false⟩ ∧
    ((upgrade true [("pd-button", widgetFull)]
          ⟨none, "PD-BUTTON", false, protoPlain, true⟩).trace ++
        (upgrade true [("pd-button", widgetFull)]
          (upgrade true [("pd-button", widgetFull)]
            ⟨none, "PD-BUTTON", false, protoPlain, true⟩).elem).trace).count .ready = 1 ∧
    ((upgrade true [("pd-button", widgetFull)]
          ⟨none, "PD-BUTTON", false, protoPlain, true⟩).trace ++
        (upgrade true [("pd-button", widgetFull)]
          (upgrade true [("pd-button", widgetFull)]
            ⟨none, "PD-BUTTON", false, protoPlain, true⟩).elem).trace).count .inserted = 1 := by
  have h := c2_upgrade_idempotent true [("pd-button", widgetFull)]
    ⟨none, "PD-BUTTON", false, protoPlain, true⟩ widgetFull rfl (by decide) (by decide)
  simpa [widgetFull, protoFull] using h

/-- C4: in a successful (non-throwing) upgrade of a not-yet-upgraded matching
node, the observable steps occur synchronously in this strict order: prototype
mutation, then the `__upgraded__` marker write, then `readyCallback` when
present, then `insertedCallback` when present and the node is attached to the
live document — so both callbacks run on a node already marked upgraded. -/
theorem c4_upgrade_step_order (hasProto : Bool) (reg : List (String × WidgetMeta)) (e : Elem)
    (w : WidgetMeta) (hu : e.upgraded = false) (hw : lookupWidget reg e = some w)
    (hok : (upgrade hasProto reg e).threw = false) :
    (upgrade hasProto reg e).trace =
      [.protoSet, .markerSet] ++
        (if w.prototype.hasReady then [Ev.ready] else []) ++
        (if w.prototype.hasInserted && e.inDocument then [Ev.inserted] else []) ∧
    (upgrade hasProto reg e).elem.upgraded = true ∧
    (upgrade hasProto reg e).elem.proto = w.prototype := by
  have helem := upgrade_elem_of_match hasProto reg e w hu hw
  have htr := (upgrade_trace_of_match hasProto reg e w hu hw).1
  have hthrew := (upgrade_trace_of_match hasProto reg e w hu hw).2
  rw [hthrew] at hok
  refine ⟨?_, by rw [helem], by rw [helem]⟩
  rw [htr]
  by_cases hrt : (w.prototype.hasReady && w.prototype.readyThrows) = true
  · rw [callbackEvents_ready_throws _ (by simpa using hrt)] at hok
    simp at hok
  · rw [callbackEvents_eq _ (by simpa using Bool.eq_false_iff.mpr hrt)]
    simp [List.append_assoc]

/-- C4 witness: the step order evaluated on a fresh in-document node matching
a widget with both callbacks present and non-throwing. -/
theorem c4_upgrade_step_order_witness :
    (upgrade true [("pd-button", widgetFull)]
        ⟨none, "PD-BUTTON", false, protoPlain, true⟩).trace =
      [.protoSet, .markerSet, .ready, .inserted] ∧
    (upgrade true [("pd-button", widgetFull)]
        ⟨none, "PD-BUTTON", false, protoPlain, true⟩).elem.upgraded = true ∧
    (upgrade true [("pd-button", widgetFull)]
        ⟨none, "PD-BUTTON", false, protoPlain, true⟩).elem.proto = protoFull := by
  have h := c4_upgrade_step_order true [("pd-button", widgetFull)]
    ⟨none, "PD-BUTTON", false, protoPlain, true⟩ widgetFull rfl (by decide) (by decide)
  simpa [widgetFull, protoFull] using h

/-- The resolution key as the amended C5 states it: the node's `is` attribute
verbatim when present and nonempty, otherwise the node's tag name lowered. -/
def resolutionKeySpec (e : Elem) : String :=
  match e.isAttr with
  | some s => if s = "" then toLowerCase e.nodeName else s
  | none => toLowerCase e.nodeName

/-- C5 counterexample: resolution is not case-insensitive on the `is`
attribute.  With `"pd-button"` registered, a node whose `is` attribute is
`"PD-BUTTON"` — differing from the registered tag only in letter case — does
not match any widget, because the `is` value is looked up verbatim while only
the node name is lower-cased. -/
theorem c5_case_sensitivity_counterexample :
    lookupWidget [("pd-button", widgetFull)]
        ⟨some "PD-BUTTON", "BUTTON", false, protoPlain, true⟩ = none ∧
    toLowerCase "PD-BUTTON" = "pd-button" := by
  constructor
  · rfl
  · rfl

/-- C5 (amended): for every node passed to `upgrade`, the Registry lookup key
is the node's `is` attribute verbatim when that attribute is present and
nonempty, otherwise the node's own tag name lower-cased.  Tag-name resolution
is therefore case-insensitive in the node's tag (two attribute-less nodes
whose tag names differ only in letter case resolve to the same widget), while
`is`-attribute resolution is exact (case-sensitive). -/
theorem c5_resolution_key_amended :
    ∀ (reg : List (String × WidgetMeta)) (e e' : Elem),
      lookupWidget reg e = lookupTag reg (resolutionKeySpec e) ∧
      (e.isAttr = none → e'.isAttr = none → toLowerCase e.nodeName = toLowerCase e'.nodeName →
        lookupWidget reg e = lookupWidget reg e') := by
  intro reg e e'
  refine ⟨rfl, ?_⟩
  intro h1 h2 h3
  simp [lookupWidget, h1, h2, h3]

/-- C5 witness: two attribute-less nodes whose tag names differ only in case
resolve identically, evaluated on a concrete one-widget registry. -/
theorem c5_resolution_key_amended_witness :
    lookupWidget [("pd-button", widgetFull)] ⟨none, "PD-BUTTON", false, protoPlain, true⟩ =
      lookupWidget [("pd-button", widgetFull)] ⟨none, "pd-button", false, protoPlain, true⟩ :=
  (c5_resolution_key_amended [("pd-button", widgetFull)]
      ⟨none, "PD-BUTTON", false, protoPlain, true⟩
      ⟨none, "pd-button", false, protoPlain, true⟩).2 rfl rfl (by decide)

/-- C10: if `readyCallback` throws during the upgrade of a fresh matching
node, the node has already received the widget's prototype and its
`__upgraded__` marker is already true, so the upgrade is not rolled back:
`insertedCallback` is never invoked in that call, and every later upgrade call
on the node is a no-op. -/
theorem c10_ready_throw_no_rollback (hasProto : Bool) (reg : List (String × WidgetMeta))
    (e : Elem) (w : WidgetMeta) (hu : e.upgraded = false) (hw : lookupWidget reg e = some w)
    (hr : w.prototype.hasReady = true) (ht : w.prototype.readyThrows = true) :
    (upgrade hasProto reg e).threw = true ∧
    (upgrade hasProto reg e).elem.proto = w.prototype ∧
    (upgrade hasProto reg e).elem.upgraded = true ∧
    (upgrade hasProto reg e).trace.count .inserted = 0 ∧
    upgrade hasProto reg (upgrade hasProto reg e).elem =
      ⟨(upgrade hasProto reg e).elem, [], false⟩ := by
  have helem := upgrade_elem_of_match hasProto reg e w hu hw
  have htr := (upgrade_trace_of_match hasProto reg e w hu hw).1
  have hthrew := (upgrade_trace_of_match hasProto reg e w hu hw).2
  refine ⟨?_, by rw [helem], by rw [helem], ?_, ?_⟩
  · rw [hthrew]; simp [callbackEvents, hr, ht]
  · rw [htr]; simp [callbackEvents, hr, ht, List.count_cons, List.count_nil]; decide
  · apply upgrade_marked_noop
    rw [helem]

/-- C10 witness: a widget whose `readyCallback` throws, upgraded on a fresh
in-document node — the throw is reported, the prototype and marker stick, no
inserted event occurs, and a repeat call is a no-op. -/
theorem c10_ready_throw_no_rollback_witness :
    (upgrade true [("pd-throw", widgetThrowingReady)]
        ⟨none, "PD-THROW", false, protoPlain, true⟩).threw = true ∧
    (upgrade true [("pd-throw", widgetThrowingReady)]
        ⟨none, "PD-THROW", false, protoPlain, true⟩).elem.proto = protoThrowingReady ∧
    (upgrade true [("pd-throw", widgetThrowingReady)]
        ⟨none, "PD-THROW", false, protoPlain, true⟩).elem.upgraded = true ∧
    (upgrade true [("pd-throw", widgetThrowingReady)]
        ⟨none, "PD-THROW", false, protoPlain, true⟩).trace.count .inserted = 0 ∧
    upgrade true [("pd-throw", widgetThrowingReady)]
        (upgrade true [("pd-throw", widgetThrowingReady)]
          ⟨none, "PD-THROW", false, protoPlain, true⟩).elem =
      ⟨(upgrade true [("pd-throw", widgetThrowingReady)]
          ⟨none, "PD-THROW", false, protoPlain, true⟩).elem, [], false⟩ := by
  have h := c10_ready_throw_no_rollback true [("pd-throw", widgetThrowingReady)]
    ⟨none, "PD-THROW", false, protoPlain, true⟩ widgetThrowingReady rfl (by decide)
    (by decide) (by decide)
  simpa [widgetThrowingReady, protoThrowingReady] using h

/-! ### C1 — register validation atomicity -/

/-- Looking up a key in an association list extended at the end with an entry
for that key succeeds. -/
theorem lookupTag_append_self {α : Type} (l : List (String × α)) (k : String) (v : α) :
    (lookupTag (l ++ [(k, v)]) k).isSome = true := by
  induction l with
  | nil => simp [lookupTag]
  | cons kv rest ih =>
    rcases kv with ⟨k', v'⟩
    by_cases h : k' = k <;> simp [lookupTag, h, ih]

/-- Shape of a `register` call: either it throws and returns the input state
untouched, or it succeeds and the registry is the input registry extended at
the end with an entry for the tag. -/
theorem register_shape (hr hp : Bool) (st : RegState) (tag : String) (base : BaseElement)
    (p : Proto) :
    ((register hr hp st tag base p).1 = st ∧
      ∃ err, (register hr hp st tag base p).2 = .error err) ∨
    ((register hr hp st tag base p).2 = .ok () ∧
      ∃ meta, (register hr hp st tag base p).1.registry = st.registry ++ [(tag, meta)]) := by
  unfold register
  split
  · exact Or.inl ⟨rfl, _, rfl⟩
  · split
    · exact Or.inl ⟨rfl, _, rfl⟩
    · split
      · exact Or.inl ⟨rfl, _, rfl⟩
      · split
        · exact Or.inl ⟨rfl, _, rfl⟩
        · dsimp only
          split
          · exact Or.inr ⟨rfl, _, rfl⟩
          · exact Or.inr ⟨rfl, _, rfl⟩

/-- A `register` call on a state whose registry already resolves the tag
fails immediately with the duplicate-tag error, before any mutation. -/
theorem register_duplicate (hr hp : Bool) (st : RegState) (tag : String) (base : BaseElement)
    (p : Proto) (h : (lookupTag st.registry tag).isSome = true) :
    register hr hp st tag base p = (st, .error .duplicateTag) := by
  unfold register
  rw [if_pos h]

/-- C1: every `register` call that fails validation — duplicate tag or a base
that neither is nor descends from `HTMLElement` — throws and leaves the
Registry and the Selector List exactly as they were; and after a successful
`register` of a tag, any second `register` of the same tag fails with the
duplicate-tag error and leaves the state (in particular the entry established
by the first call) unchanged. -/
theorem c1_register_validation_atomic :
    ∀ (hasDocRegister hasProto : Bool) (st : RegState) (tag : String) (base : BaseElement)
      (p : Proto),
      (((register hasDocRegister hasProto st tag base p).2 = .error .duplicateTag ∨
        (register hasDocRegister hasProto st tag base p).2 = .error .invalidBase) →
        (register hasDocRegister hasProto st tag base p).1 = st) ∧
      (∀ (hr2 hp2 : Bool) (base2 : BaseElement) (p2 : Proto),
        (register hasDocRegister hasProto st tag base p).2 = .ok () →
        register hr2 hp2 (register hasDocRegister hasProto st tag base p).1 tag base2 p2 =
          ((register hasDocRegister hasProto st tag base p).1, .error .duplicateTag)) := by
  intro hr hp st tag base p
  constructor
  · intro herr
    rcases register_shape hr hp st tag base p with ⟨h1, _⟩ | ⟨hok, _⟩
    · exact h1
    · rcases herr with herr | herr <;> rw [hok] at herr <;> simp at herr
  · intro hr2 hp2 base2 p2 hok
    rcases register_shape hr hp st tag base p with ⟨_, _, herr⟩ | ⟨_, meta, hreg⟩
    · rw [herr] at hok; simp at hok
    · have hsome : (lookupTag (register hr hp st tag base p).1.registry tag).isSome = true := by
        rw [hreg]; exact lookupTag_append_self _ _ _
      exact register_duplicate hr2 hp2 _ tag base2 p2 hsome

/-- A `baseElement` that is not `HTMLElement` and does not descend from it. -/
def baseNotElement : BaseElement := ⟨false, false, none, some "Foo", none⟩

/-- C1 witness: a duplicate registration and an invalid-base registration each
leave a concrete state untouched, and re-registering a concretely registered
tag fails with the duplicate-tag error without changing the state. -/
theorem c1_register_validation_atomic_witness :
    (register false true ⟨[("pd-button", widgetFull)], []⟩ "pd-button" baseButton protoFull).1 =
      ⟨[("pd-button", widgetFull)], []⟩ ∧
    (register false true ⟨[], []⟩ "x-bad" baseNotElement protoFull).1 = ⟨[], []⟩ ∧
    register false true (register false true ⟨[], []⟩ "pd-button" baseButton protoFull).1
        "pd-button" baseButton protoFull =
      ((register false true ⟨[], []⟩ "pd-button" baseButton protoFull).1,
        .error .duplicateTag) :=
  ⟨(c1_register_validation_atomic false true ⟨[("pd-button", widgetFull)], []⟩ "pd-button"
      baseButton protoFull).1 (Or.inl (by decide)),
   (c1_register_validation_atomic false true ⟨[], []⟩ "x-bad" baseNotElement protoFull).1
      (Or.inr (by decide)),
   (c1_register_validation_atomic false true ⟨[], []⟩ "pd-button" baseButton protoFull).2
      false true baseButton protoFull (by decide)⟩

/-! ### C6 — parse -/

/-- Reading the position just overwritten by `set` yields the written value. -/
theorem getD_set_eq {α : Type} (a d : α) :
    ∀ (l : List α) (i : Nat), i < l.length → (l.set i a).getD i d = a := by
  intro l
  induction l with
  | nil => intro i h; simp at h
  | cons x xs ih =>
    intro i h
    cases i with
    | zero => simp
    | succ n => simpa using ih n (by simpa using h)

/-- Reading any other position is unaffected by `set`. -/
theorem getD_set_ne {α : Type} (a d : α) (l : List α) (i j : Nat) (h : i ≠ j) :
    (l.set i a).getD j d = l.getD j d := by
  simp [List.getD_eq_getElem?_getD, List.getElem?_set_ne h]

/-- The loop aborts at a throwing upgrade: when the head match's lifecycle
callback throws, the loop returns right there — the head node keeps the
mutations `upgrade` made before the throw, and no later match is visited. -/
theorem parseLoop_aborts_on_throw (hasProto : Bool) (reg : List (String × WidgetMeta))
    (i : Nat) (rest : List Nat) (d : List Elem) (tr : List Ev)
    (h : (upgrade hasProto reg (d.getD i default)).threw = true) :
    parseLoop hasProto reg (i :: rest) (d, tr) =
      ((d.set i (upgrade hasProto reg (d.getD i default)).elem,
        tr ++ (upgrade hasProto reg (d.getD i default)).trace), true) := by
  simp only [parseLoop, h]
  simp

/-- Characterization of `parse`'s upgrade loop over a strictly ascending list
of in-bounds indices (the shape `queryMatches` produces), when no visited
upgrade throws: the loop runs to completion, the document keeps its length,
the node at each queried index is upgraded from its pre-parse state, every
other node is untouched, and the trace is the concatenation of the per-node
upgrade traces in query order. -/
theorem parseLoop_char (hasProto : Bool) (reg : List (String × WidgetMeta)) :
    ∀ (l : List Nat) (d : List Elem) (tr : List Ev),
      l.Pairwise (· < ·) → (∀ i ∈ l, i < d.length) →
      (∀ i ∈ l, (upgrade hasProto reg (d.getD i default)).threw = false) →
      (parseLoop hasProto reg l (d, tr)).2 = false ∧
      (parseLoop hasProto reg l (d, tr)).1.1.length = d.length ∧
      (∀ j : Nat, (parseLoop hasProto reg l (d, tr)).1.1.getD j default =
        if j ∈ l then (upgrade hasProto reg (d.getD j default)).elem
        else d.getD j default) ∧
      (parseLoop hasProto reg l (d, tr)).1.2 =
        tr ++ (l.map (fun i => (upgrade hasProto reg (d.getD i default)).trace)).flatten := by
  intro l
  induction l with
  | nil =>
    intro d tr _ _ _
    refine ⟨rfl, rfl, ?_, by simp [parseLoop]⟩
    intro j
    simp [parseLoop]
  | cons i rest ih =>
    intro d tr hpw hbound hnothrow
    obtain ⟨hlt, hpw'⟩ := List.pairwise_cons.mp hpw
    have hi : i < d.length := hbound i (by simp)
    have hnti : (upgrade hasProto reg (d.getD i default)).threw = false :=
      hnothrow i (by simp)
    have hstep : parseLoop hasProto reg (i :: rest) (d, tr) =
        parseLoop hasProto reg rest
          (d.set i (upgrade hasProto reg (d.getD i default)).elem,
           tr ++ (upgrade hasProto reg (d.getD i default)).trace) := by
      simp only [parseLoop, hnti]
      simp
    rw [hstep]
    have hbound' : ∀ i' ∈ rest,
        i' < (d.set i (upgrade hasProto reg (d.getD i default)).elem).length := by
      intro i' hmem
      simpa using hbound i' (by simp [hmem])
    have hnothrow' : ∀ i' ∈ rest,
        (upgrade hasProto reg
          ((d.set i (upgrade hasProto reg (d.getD i default)).elem).getD i' default)).threw =
          false := by
      intro i' hmem
      rw [getD_set_ne _ _ _ _ _ (Nat.ne_of_lt (hlt i' hmem))]
      exact hnothrow i' (by simp [hmem])
    obtain ⟨ihthrew, ihlen, ihget, ihtr⟩ :=
      ih (d.set i (upgrade hasProto reg (d.getD i default)).elem)
        (tr ++ (upgrade hasProto reg (d.getD i default)).trace) hpw' hbound' hnothrow'
    refine ⟨ihthrew, by rw [ihlen, List.length_set], ?_, ?_⟩
    · intro j
      rw [ihget j]
      by_cases hj : j = i
      · subst hj
        have hnotin : j ∉ rest := fun hmem => lt_irrefl j (hlt j hmem)
        rw [if_neg hnotin, getD_set_eq _ _ _ _ hi, if_pos (List.mem_cons_self j rest)]
      · have hne : i ≠ j := fun h => hj h.symm
        rw [getD_set_ne _ _ _ _ _ hne]
        by_cases hjm : j ∈ rest
        · rw [if_pos hjm, if_pos (List.mem_cons_of_mem i hjm)]
        · rw [if_neg hjm, if_neg (by simp [hj, hjm])]
    · rw [ihtr]
      have hmap : rest.map (fun i' =>
            (upgrade hasProto reg
              ((d.set i (upgrade hasProto reg (d.getD i default)).elem).getD i' default)).trace) =
          rest.map (fun i' => (upgrade hasProto reg (d.getD i' default)).trace) := by
        apply List.map_congr_left
        intro a ha
        rw [getD_set_ne _ _ _ _ _ (Nat.ne_of_lt (hlt a ha))]
      rw [hmap, List.map_cons, List.flatten_cons, List.append_assoc]

/-- C6: `parse` is a no-op when native registration is available; otherwise it
performs exactly one batched query of the root's nodes — the nodes matching
any selector in the Selector List, taken from the pre-parse snapshot — and
calls `upgrade` on each match in the order returned by that query (document
order).  Stated for parses in which no visited lifecycle callback throws (the
loop runs to completion; a throw instead aborts the loop, the case
`parseLoop_aborts_on_throw` and C10 settle): the matched nodes end up upgraded
from their pre-parse state, every other node is untouched, and the trace is
the concatenation of the per-match upgrade traces in query order. -/
theorem c6_parse_noop_or_batched_upgrade (hasProto : Bool) (reg : List (String × WidgetMeta))
    (sels : List String) (root : List Elem)
    (hnothrow : ∀ i ∈ queryMatches sels root,
      (upgrade hasProto reg (root.getD i default)).threw = false) :
    parse true hasProto reg sels root = ((root, []), false) ∧
    (parse false hasProto reg sels root).2 = false ∧
    (parse false hasProto reg sels root).1.1.length = root.length ∧
    (∀ j : Nat, (parse false hasProto reg sels root).1.1.getD j default =
      if j ∈ queryMatches sels root then (upgrade hasProto reg (root.getD j default)).elem
      else root.getD j default) ∧
    (parse false hasProto reg sels root).1.2 =
      ((queryMatches sels root).map
        (fun i => (upgrade hasProto reg (root.getD i default)).trace)).flatten ∧
    (∀ j : Nat, j ∈ queryMatches sels root ↔
      j < root.length ∧ matchesAnySelector sels (root.getD j default) = true) := by
  have hpw : (queryMatches sels root).Pairwise (· < ·) :=
    (List.pairwise_lt_range root.length).filter _
  have hbound : ∀ i ∈ queryMatches sels root, i < root.length := by
    intro i hi
    have hmem := List.mem_filter.mp hi
    simpa using List.mem_range.mp hmem.1
  obtain ⟨h0, h1, h2, h3⟩ :=
    parseLoop_char hasProto reg (queryMatches sels root) root [] hpw hbound hnothrow
  refine ⟨by simp [parse], by simpa [parse] using h0, by simpa [parse] using h1, ?_,
    by simpa [parse] using h3, ?_⟩
  · intro j
    simpa [parse] using h2 j
  · intro j
    simp [queryMatches, List.mem_filter, List.mem_range]

/-- A three-node document: two nodes matching the `pd-button` selector and one
(`DIV`) matching nothing. -/
def demoRoot : List Elem :=
  [⟨none, "PD-BUTTON", false, protoPlain, true⟩,
   ⟨none, "DIV", false, protoPlain, true⟩,
   ⟨none, "PD-BUTTON", false, protoPlain, true⟩]

/-- C6 witness: a concrete non-native parse of a three-node document against
a non-throwing registered widget — no throw, length preserved, the
non-matching node untouched, both matching nodes upgraded, and both their
indices (only) in the query. -/
theorem c6_parse_noop_or_batched_upgrade_witness :
    parse true true [("pd-button", widgetFull)] ["pd-button"] demoRoot =
      ((demoRoot, []), false) ∧
    (parse false true [("pd-button", widgetFull)] ["pd-button"] demoRoot).2 = false ∧
    (parse false true [("pd-button", widgetFull)] ["pd-button"] demoRoot).1.1.length = 3 ∧
    (parse false true [("pd-button", widgetFull)] ["pd-button"] demoRoot).1.1.getD 1 default =
      demoRoot.getD 1 default ∧
    (parse false true [("pd-button", widgetFull)] ["pd-button"] demoRoot).1.1.getD 0 default =
      (upgrade true [("pd-button", widgetFull)] (demoRoot.getD 0 default)).elem ∧
    (parse false true [("pd-button", widgetFull)] ["pd-button"] demoRoot).1.1.getD 2 default =
      (upgrade true [("pd-button", widgetFull)] (demoRoot.getD 2 default)).elem := by
  have h := c6_parse_noop_or_batched_upgrade true [("pd-button", widgetFull)] ["pd-button"]
    demoRoot (by decide)
  refine ⟨h.1, h.2.1, ?_, ?_, ?_, ?_⟩
  · rw [h.2.2.1]; rfl
  · rw [h.2.2.2.1 1, if_neg (by decide)]
  · rw [h.2.2.2.1 0, if_pos (by decide)]
  · rw [h.2.2.2.1 2, if_pos (by decide)]

end Pidgin
